import Mathlib

/-!
Shallow embedding of `guide_movie/gf_movie.py` (a guide-frame GIF builder).

The script has two functions:

* `print_progress_bar(iteration, total, prefix, suffix, decimals, length, fill, time_in)`
  (lines 30-63): prints a percentage, a fill bar and an optional estimated time
  remaining, and a final newline when `iteration == total`.
* `make_gif(frames, ...)` (lines 66-219): sorts the frame paths, pads the first five
  frames (lines 82-93), derives a save-file name from the first frame's header
  (lines 95-117 and 216), and builds the animation by calling the nested `update(n)`
  renderer (lines 129-208) once per (padded) index.

Modelling conventions:

* Python floats (frame intervals, header numbers, elapsed seconds) are modelled as `ℚ`.
* Exceptions are modelled with `Except PyError`; a propagating exception is an
  `.error` value and straight-line code that does not catch it passes the value up.
* Terminal output is modelled as the list of strings passed to `print`.
* External libraries keep only their interface: `datetime.strptime` is an abstract
  parameter `String → String → Option ℕ` (a successful parse yields an abstract
  timestamp), `WCS(header)` is abstracted by a predicate `Header → Bool` saying
  whether the header holds a valid transform, and `ZScaleInterval().get_limits` is an
  abstract `Img → ℚ × ℚ`.
* A FITS file is a list of HDUs; each HDU has an optional `EXTNAME`, a header
  (an association list of key/value cards) and a 2-D integer data array.
-/

/-- Python exception kinds that `gf_movie.py` can raise or catch. -/
inductive PyError : Type where
  | zeroDivisionError : PyError
  | keyError : PyError
  | valueError : PyError
  | indexError : PyError
  | typeError : PyError
  | attributeError : PyError
  deriving DecidableEq

instance {ε α : Type} [DecidableEq ε] [DecidableEq α] : DecidableEq (Except ε α) := fun a b =>
  match a, b with
  | .error e, .error f =>
    if h : e = f then isTrue (h ▸ rfl) else isFalse fun hh => h (Except.error.inj hh)
  | .error _, .ok _ => isFalse fun hh => Except.noConfusion hh
  | .ok _, .error _ => isFalse fun hh => Except.noConfusion hh
  | .ok x, .ok y =>
    if h : x = y then isTrue (h ▸ rfl) else isFalse fun hh => h (Except.ok.inj hh)

/-- A FITS header card value: a string or a number. -/
inductive HVal : Type where
  | str : String → HVal
  | num : ℚ → HVal
  deriving DecidableEq

/-- A FITS header: an ordered association list of cards. -/
abbrev Header : Type := List (String × HVal)

/-- A 2-D image array (`data`), row major like numpy: `data.length` is `shape[0]`. -/
abbrev Img : Type := List (List ℤ)

/-- One HDU of a FITS file: optional `EXTNAME`, header, data. -/
structure Hdu : Type where
  extname : Option String
  header : Header
  data : Img
  deriving DecidableEq

/-- A FITS file as opened by `fits.open`: its list of HDUs. -/
abbrev FitsFile : Type := List Hdu

/-- `header[key]` lookup: astropy returns the value of the first card with that key,
and raises `KeyError` when absent (here: `none`). -/
def headerLookup (h : Header) (key : String) : Option HVal :=
  (h.find? fun p => p.1 = key).map fun p => p.2

/-- `header[key] = v` assignment: replace the first card with that key, or append. -/
def headerSet (h : Header) (key : String) (v : HVal) : Header :=
  match h with
  | [] => [(key, v)]
  | p :: rest => if p.1 = key then (key, v) :: rest else p :: headerSet rest key v

/-- Read a numeric header value; a missing key is a `KeyError` and a string value
makes the subsequent arithmetic raise a `TypeError`. -/
def getNumField (h : Header) (key : String) : Except PyError ℚ :=
  match headerLookup h key with
  | some (.num q) => .ok q
  | some (.str _) => .error .typeError
  | none => .error .keyError

/-- The strings printed by a model run (each element one `print` payload). -/
def printedLines (r : Except PyError (List String)) : List String :=
  match r with
  | .ok ls => ls
  | .error _ => []

/-- `true` iff the computation finished without a propagating exception. -/
def exceptIsOk {ε α : Type} (r : Except ε α) : Bool :=
  match r with
  | .ok _ => true
  | .error _ => false

/-! ### Python string and path primitives used by the script -/

/-- Python `s.lstrip(c)` for a single strip character. -/
def pyLstrip (c : Char) (s : String) : String :=
  String.mk (s.data.dropWhile fun a => a = c)

/-- Python `s.replace(old, new)` for single-character `old`/`new`
(the script only replaces single characters). -/
def pyReplaceChar (old new : Char) (s : String) : String :=
  String.mk (s.data.map fun a => if a = old then new else a)

/-- Python `os.path.dirname` (POSIX): the part before the last `/`, with trailing
slashes stripped unless the head is all slashes. -/
def pyDirname (p : String) : String :=
  let cs := p.data
  let headLen := cs.length - (cs.reverse.takeWhile fun a => a ≠ '/').length
  let head := cs.take headLen
  if head.all fun a => a = '/' then String.mk head
  else String.mk ((head.reverse.dropWhile fun a => a = '/').reverse)

/-- Python `os.path.join(a, b)` (POSIX, two components). -/
def pyJoin (a b : String) : String :=
  if b.data.head? = some '/' then b
  else if a.data = [] ∨ a.data.getLast? = some '/' then a ++ b
  else a ++ "/" ++ b

/-- Round a rational to an integer, ties to even: the rounding used when Python
formats an exactly representable float with `"{0:.Nf}"`. -/
def halfEvenRound (q : ℚ) : ℤ :=
  let f := ⌊q⌋
  if q - f < 1 / 2 then f
  else if (1 / 2 : ℚ) < q - f then f + 1
  else if f % 2 = 0 then f else f + 1

/-- Left-pad a digit string with zeros to `d` characters. -/
def padZeros (d : ℕ) (s : String) : String :=
  String.mk (List.replicate (d - s.data.length) '0') ++ s

/-- Python `"{0:.df}".format(q)`: fixed-point formatting with `d` decimals. -/
def pyFormatFixed (q : ℚ) (d : ℕ) : String :=
  let n := halfEvenRound (q * (10 : ℚ) ^ d)
  let sign := if n < 0 then "-" else ""
  let m := n.natAbs
  if d = 0 then sign ++ toString m
  else sign ++ toString (m / 10 ^ d) ++ "." ++ padZeros d (toString (m % 10 ^ d))

/-! ### `print_progress_bar` (lines 30-63) -/

/-- `print_progress_bar(iteration, total, prefix, suffix, decimals, length, fill, time_in)`,
lines 30-63.  `elapsed` stands for `(datetime.now() - time_in).total_seconds()`; it is
`none` when `time_in is None`.  The result is the list of printed strings: the
carriage-return-framed progress line, plus a bare newline when `iteration == total`.
`total == 0` makes line 43 (`iteration / float(total)`) raise `ZeroDivisionError`;
`iteration == 0` with a start time makes line 50 (`delta_t/iteration`) raise it. -/
def print_progress_bar (iteration total : ℕ) (pre suf : String) (decimals length : ℕ)
    (fill : Char) (elapsed : Option ℚ) : Except PyError (List String) :=
  if total = 0 then .error .zeroDivisionError
  else
    let percent := pyFormatFixed (100 * ((iteration : ℚ) / (total : ℚ))) decimals
    let filled_length := length * iteration / total
    let bar := String.mk (List.replicate filled_length fill
      ++ List.replicate (length - filled_length) '-')
    let rest := fun (time_left : String) =>
      let line := "\r" ++ pre ++ " |" ++ bar ++ "| " ++ percent ++ "%" ++ time_left
        ++ suf ++ "\r"
      if iteration = total then [line, "\n"] else [line]
    match elapsed with
    | none => .ok (rest " ")
    | some delta_t =>
      if iteration = 0 then .error .zeroDivisionError
      else
        let total_time := delta_t / (iteration : ℚ) * ((total : ℚ) - (iteration : ℚ))
        let time_left :=
          if 90 < total_time then "| " ++ pyFormatFixed (total_time / 60) 1 ++ " min remaining |"
          else if 5400 < total_time then
            "| " ++ pyFormatFixed (total_time / 60 / 60) 1 ++ " hrs remaining |"
          else "| " ++ pyFormatFixed total_time 1 ++ " sec remaining |"
        .ok (rest time_left)

/-! ### The sequence padder of `make_gif` (lines 82-93) -/

/-- `start_frames = 5` (line 82): how many leading frames get the intro rate. -/
def start_frames : ℕ := 5

/-- The nested `while` loops of lines 86-93, fused into one recursion.  The state
`(files, i, c)` is: `c < copies` means we are inside the inner loop about to run
`np.insert(fits_files, i, fits_files[i]); i += 1; c += 1`; otherwise the inner loop
is done, the outer loop runs `i += 1` and re-tests `i < start_frames * copies`,
re-entering the body with `c = 1`.  The Python entry state `i = 0` (before the first
outer test) is `padLoop copies files (-1) copies`. -/
def padLoop {α : Type} [Inhabited α] (copies : ℤ) (files : List α) (i c : ℤ) : List α :=
  if c < copies then
    padLoop copies (files.insertIdx i.toNat (files.getD i.toNat default)) (i + 1) (c + 1)
  else if i + 1 < 5 * copies then
    padLoop copies files (i + 1) 1
  else files
termination_by (copies.toNat + 1) * (5 * copies - i).toNat + (copies - c).toNat
decreasing_by
  · have hA : (5 * copies - (i + 1)).toNat ≤ (5 * copies - i).toNat := by omega
    have hB : (copies - (c + 1)).toNat < (copies - c).toNat := by omega
    exact Nat.add_lt_add_of_le_of_lt (Nat.mul_le_mul_left _ hA) hB
  · have hB : (copies - 1).toNat < copies.toNat + 1 := by omega
    have hA : (5 * copies - (i + 1)).toNat + 1 ≤ (5 * copies - i).toNat := by omega
    calc (copies.toNat + 1) * (5 * copies - (i + 1)).toNat + (copies - 1).toNat
        < (copies.toNat + 1) * (5 * copies - (i + 1)).toNat + (copies.toNat + 1) := by omega
      _ = (copies.toNat + 1) * ((5 * copies - (i + 1)).toNat + 1) := by ring
      _ ≤ (copies.toNat + 1) * (5 * copies - i).toNat := Nat.mul_le_mul_left _ hA
      _ = (copies.toNat + 1) * (5 * copies - i).toNat + (copies - c).toNat := by omega

/-- The `copies` multiplier of lines 83-85: `init_fr // fr` when
`init_fr and init_fr > fr and len(fits_files) > start_frames`, else the sentinel 1.
Float floor division `//` is `⌊init_fr / fr⌋`. -/
def make_gif_copies (init_fr fr : ℚ) (numFiles : ℕ) : ℤ :=
  if init_fr ≠ 0 ∧ fr < init_fr ∧ start_frames < numFiles then ⌊init_fr / fr⌋ else 1

/-- The padding step of `make_gif` (lines 82-93) applied to the (already sorted)
frame list: duplicate leading frames when the intro rate is slower. -/
def make_gif_pad {α : Type} [Inhabited α] (init_fr fr : ℚ) (files : List α) : List α :=
  if init_fr ≠ 0 ∧ fr < init_fr ∧ start_frames < files.length then
    padLoop ⌊init_fr / fr⌋ files (-1) ⌊init_fr / fr⌋
  else files

/-- The frame total displayed in each title (line 192):
`int(len(fits_files) - (copies - 1) * start_frames)` over the padded list. -/
def totalDisplayed (numPadded : ℕ) (copies : ℤ) : ℤ :=
  (numPadded : ℤ) - (copies - 1) * (start_frames : ℤ)

/-! ### Save-file naming (lines 80, 96-109 and 216) -/

/-- The save-file path of `make_gif`: `path = os.path.dirname(frames[0]).lstrip(' ')`
(line 80), `obj = header['OBJECT']` (line 105), `rn = header['REQNUM'].lstrip('0')`
with `KeyError` caught to `'UNKNOWN'` (lines 106-109), and line 216:
`os.path.join(path, obj.replace(' ', '_').replace('/', '_') + '_' + rn + '_guidemovie.gif')`.
`header` is the selected header of the first (sorted, padded) file. -/
def make_gif_savefile (frames : List String) (header : Header) : Except PyError String :=
  match frames.head? with
  | none => .error .indexError
  | some f =>
    let path := pyLstrip ' ' (pyDirname f)
    match headerLookup header "OBJECT" with
    | none => .error .keyError
    | some (.num _) => .error .attributeError
    | some (.str obj) =>
      let stem := fun (rn : String) =>
        pyReplaceChar '/' '_' (pyReplaceChar ' ' '_' obj) ++ "_" ++ rn ++ "_guidemovie.gif"
      match headerLookup header "REQNUM" with
      | some (.num _) => .error .attributeError
      | some (.str r) => .ok (pyJoin path (stem (pyLstrip '0' r)))
      | none => .ok (pyJoin path (stem "UNKNOWN"))

/-! ### The per-frame renderer `update` (lines 129-208) -/

/-- The extension fallback of lines 96-103 and 136-146: try `hdul['SCI']`, on
`KeyError` try `hdul['COMPRESSED_IMAGE']`, on `KeyError` use `hdul[0]`. -/
def selectHdu (hdul : FitsFile) : Option Hdu :=
  match hdul.find? fun u => u.extname = some "SCI" with
  | some u => some u
  | none =>
    match hdul.find? fun u => u.extname = some "COMPRESSED_IMAGE" with
    | some u => some u
    | none => hdul[0]?

/-- `fits.open(fits_files[n])` plus the extension fallback; an out-of-range index or
an empty HDU list is an `IndexError`. -/
def openFrame (files : List FitsFile) (n : ℕ) : Except PyError Hdu :=
  match files[n]? with
  | none => .error .indexError
  | some hdul =>
    match selectHdu hdul with
    | some u => .ok u
    | none => .error .indexError

/-- Python `l[k:-k]`: for `k = 0` the stop index `-0` is `0`, so the slice is empty;
for `k > 0` it keeps indices `k ≤ j < len - k`. -/
def pyCenterSlice {α : Type} (k : ℕ) (l : List α) : List α :=
  if k = 0 then [] else (l.drop k).take (l.length - 2 * k)

/-- The center-crop block of lines 147-153: `x_frac = int(shape[0]/2.5)`,
`y_frac = int(shape[1]/2.5)`, `data = data[x_frac:-x_frac, y_frac:-y_frac]`,
`header['CRPIX1'] -= x_frac`, `header['CRPIX2'] -= y_frac`.
`int(r/2.5)` for a nonnegative integer `r` is `2 * r / 5` in natural division. -/
def centerCropStep (header : Header) (data : Img) : Except PyError (Header × Img) :=
  if data = [] then .error .indexError
  else
    let x_frac := 2 * data.length / 5
    let y_frac := 2 * (data.headD []).length / 5
    let cropped := (pyCenterSlice x_frac data).map fun row => pyCenterSlice y_frac row
    match getNumField header "CRPIX1" with
    | .error e => .error e
    | .ok c1 =>
      match getNumField header "CRPIX2" with
      | .error e => .error e
      | .ok c2 =>
        .ok (headerSet (headerSet header "CRPIX1" (.num (c1 - (x_frac : ℚ))))
          "CRPIX2" (.num (c2 - (y_frac : ℚ))), cropped)

/-- Lines 147-153 guarded by the `center` flag. -/
def cropStage (center : Bool) (header : Header) (data : Img) : Except PyError (Header × Img) :=
  if center then centerCropStep header data else .ok (header, data)

/-- The first `strptime` format of line 163. -/
def fmtWithFrac : String := "%Y-%m-%dT%H:%M:%S.%f"

/-- The second `strptime` format of line 165. -/
def fmtNoFrac : String := "%Y-%m-%dT%H:%M:%S"

/-- Lines 158-161: `header['DATE-OBS']`, on `KeyError` `header['DATE_OBS']`; a second
`KeyError` propagates. -/
def getDateObs (h : Header) : Except PyError HVal :=
  match headerLookup h "DATE-OBS" with
  | some v => .ok v
  | none =>
    match headerLookup h "DATE_OBS" with
    | some v => .ok v
    | none => .error .keyError

/-- Lines 162-165: `strptime(date_obs, fmtWithFrac)`, on `ValueError`
`strptime(date_obs, fmtNoFrac)`; a second `ValueError` propagates.  `strptime` is the
abstract library parser; a non-string argument raises `TypeError`. -/
def parseDateObs (strptime : String → String → Option ℕ) (v : HVal) : Except PyError ℕ :=
  match v with
  | .num _ => .error .typeError
  | .str s =>
    match strptime s fmtWithFrac with
    | some d => .ok d
    | none =>
      match strptime s fmtNoFrac with
      | some d => .ok d
      | none => .error .valueError

/-- Lines 157-165 combined: observation timestamp of a frame header. -/
def extractDate (strptime : String → String → Option ℕ) (h : Header) : Except PyError ℕ :=
  match getDateObs h with
  | .error e => .error e
  | .ok v => parseDateObs strptime v

/-- The reticle block of lines 199-204: when
`(current_count < 6 and fr != init_fr) and tr`, read `CRPIX1`, `CRPIX2`, `PIXSCALE`
and build circles of radius `5/PIXSCALE` and `15/PIXSCALE` at `(CRPIX1, CRPIX2)`;
`PIXSCALE == 0` raises `ZeroDivisionError`. -/
def reticleStage (tr : Bool) (fr init_fr : ℚ) (count : ℕ) (h : Header) :
    Except PyError (Option (ℚ × ℚ × ℚ × ℚ)) :=
  if count < 6 ∧ fr ≠ init_fr ∧ tr = true then
    match getNumField h "CRPIX1" with
    | .error e => .error e
    | .ok c1 =>
      match getNumField h "CRPIX2" with
      | .error e => .error e
      | .ok c2 =>
        match getNumField h "PIXSCALE" with
        | .error e => .error e
        | .ok ps =>
          if ps = 0 then .error .zeroDivisionError
          else .ok (some (c1, c2, 5 / ps, 15 / ps))
  else .ok none

/-- Lines 206-207: the progress-bar call
`print_progress_bar(n+1, len(fits_files), prefix='Creating Gif: Frame {}'..., time_in=time_in)`. -/
def progressStage (progress : Bool) (n total count : ℕ) (elapsed : ℚ) :
    Except PyError (Option (List String)) :=
  if progress then
    match print_progress_bar (n + 1) total ("Creating Gif: Frame " ++ toString count) "" 1 100
      '█' (some elapsed) with
    | .error e => .error e
    | .ok ls => .ok (some ls)
  else .ok none

/-- The observable result of one `update(n)` call. -/
structure RenderState : Type where
  data : Img
  date : ℕ
  zlow : ℚ
  zhigh : ℚ
  grid : Bool
  count : ℕ
  total : ℤ
  reticle : Option (ℚ × ℚ × ℚ × ℚ)
  progressLines : Option (List String)
  deriving DecidableEq

/-- The renderer `update(n)` of lines 129-208.  Abstract library parameters:
`strptime` (timestamp parser), `wcsValid` (whether `WCS(header)` plus the coordinate
calls succeed — when they raise `InvalidTransformError`/`AttributeError` lines 171-189
swallow it and no grid is drawn), `zs` (the ZScale display interval).
`count` is `len(np.unique(fits_files[:n+1]))` (line 191) and `total` the displayed
frame total of line 192. -/
def update (strptime : String → String → Option ℕ) (wcsValid : Header → Bool)
    (zs : Img → ℚ × ℚ) (center tr progress : Bool) (fr init_fr : ℚ) (copies : ℤ)
    (elapsed : ℚ) (files : List FitsFile) (n : ℕ) : Except PyError RenderState :=
  match openFrame files n with
  | .error e => .error e
  | .ok u =>
    match cropStage center u.header u.data with
    | .error e => .error e
    | .ok (hd, dat) =>
      match extractDate strptime hd with
      | .error e => .error e
      | .ok date =>
        let z := zs dat
        let grid := wcsValid hd
        let count := (files.take (n + 1)).dedup.length
        match reticleStage tr fr init_fr count hd with
        | .error e => .error e
        | .ok ret =>
          match progressStage progress n files.length count elapsed with
          | .error e => .error e
          | .ok prog =>
            .ok ⟨dat, date, z.1, z.2, grid, count, totalDisplayed files.length copies,
              ret, prog⟩

/-- `FuncAnimation(fig, update, frames=len(fits_files), ...)` (line 214) drives
`update` once per index in order; an exception in any call propagates and aborts the
whole run. -/
def runFrames (strptime : String → String → Option ℕ) (wcsValid : Header → Bool)
    (zs : Img → ℚ × ℚ) (center tr progress : Bool) (fr init_fr : ℚ) (copies : ℤ)
    (elapsed : ℚ) (files : List FitsFile) : List ℕ → Except PyError (List RenderState)
  | [] => .ok []
  | n :: ns =>
    match update strptime wcsValid zs center tr progress fr init_fr copies elapsed files n with
    | .error e => .error e
    | .ok st =>
      match runFrames strptime wcsValid zs center tr progress fr init_fr copies elapsed
        files ns with
      | .error e => .error e
      | .ok sts => .ok (st :: sts)

/-- The whole animation pass: render every index of the padded list. -/
def runAll (strptime : String → String → Option ℕ) (wcsValid : Header → Bool)
    (zs : Img → ℚ × ℚ) (center tr progress : Bool) (fr init_fr : ℚ) (copies : ℤ)
    (elapsed : ℚ) (files : List FitsFile) : Except PyError (List RenderState) :=
  runFrames strptime wcsValid zs center tr progress fr init_fr copies elapsed files
    (List.range files.length)

/-! ### Padding lemmas -/

theorem list_getD_append_cons {α : Type} [Inhabited α] (pre suf : List α) (x : α) :
    (pre ++ x :: suf).getD pre.length default = x := by
  induction pre with
  | nil => rfl
  | cons a t ih => simpa using ih

theorem list_insertIdx_append {α : Type} (pre rest : List α) (y : α) :
    (pre ++ rest).insertIdx pre.length y = pre ++ y :: rest := by
  induction pre with
  | nil => rfl
  | cons a t ih => simpa [List.insertIdx_succ_cons] using ih

/-- Running the inner `while c < copies` loop of lines 88-92 from a state where the
element at index `i = pre.length` is `x` and `c = copies - k`: the loop inserts `k`
extra copies of `x` and advances `i` past them. -/
theorem padLoop_inner {α : Type} [Inhabited α] (copies : ℤ) (k : ℕ) :
    ∀ (pre suf : List α) (x : α),
    padLoop copies (pre ++ x :: suf) (pre.length : ℤ) (copies - k) =
    padLoop copies (pre ++ List.replicate (k + 1) x ++ suf) ((pre.length : ℤ) + k) copies := by
  induction k with
  | zero => intro pre suf x; simp
  | succ k ih =>
    intro pre suf x
    rw [padLoop]
    have hc : copies - ((k : ℕ) + 1 : ℕ) < copies := by omega
    rw [if_pos hc]
    have htn : ((pre.length : ℤ)).toNat = pre.length := Int.toNat_natCast _
    rw [htn, list_getD_append_cons, list_insertIdx_append]
    have harg : copies - ((k : ℕ) + 1 : ℕ) + 1 = copies - (k : ℕ) := by push_cast; ring
    have hlist : pre ++ x :: x :: suf = (pre ++ [x]) ++ x :: suf := by simp
    have hi : (pre.length : ℤ) + 1 = (((pre ++ [x]).length : ℕ) : ℤ) := by
      simp [List.length_append]
    rw [harg, hlist, hi, ih (pre ++ [x]) suf x]
    have hl2 : (pre ++ [x]) ++ List.replicate (k + 1) x ++ suf
        = pre ++ List.replicate (k + 1 + 1) x ++ suf := by
      simp [List.replicate_succ, List.append_assoc]
    have hi2 : ((((pre ++ [x]).length : ℕ) : ℤ)) + k = (pre.length : ℤ) + ((k : ℕ) + 1 : ℕ) := by
      simp [List.length_append]; ring
    rw [hl2, hi2]

/-- Running the outer `while i < start_frames * copies` loop of lines 86-93 from the
start of an outer iteration with `j = 5 - m` elements already processed: the first
`m` elements of `suf` each get expanded to `copies` consecutive copies. -/
theorem padLoop_outer {α : Type} [Inhabited α] (copies : ℤ) (hcop : 1 ≤ copies) :
    ∀ (m j : ℕ) (pre suf : List α), j + m = 5 → (pre.length : ℤ) = j * copies →
    m ≤ suf.length →
    padLoop copies (pre ++ suf) ((pre.length : ℤ) - 1) copies =
    pre ++ (suf.take m).flatMap (fun x => List.replicate copies.toNat x) ++ suf.drop m := by
  intro m
  induction m with
  | zero =>
    intro j pre suf hj hlen hm
    have hj5 : j = 5 := by omega
    rw [padLoop]
    have h1 : ¬ (copies < copies) := lt_irrefl _
    have h2 : ¬ ((pre.length : ℤ) < 5 * copies) := by
      rw [hlen, hj5]; push_cast; omega
    simp [h1, h2]
  | succ m ih =>
    intro j pre suf hj hlen hm
    rcases suf with _ | ⟨x, suf⟩
    · simp at hm
    rw [padLoop]
    have h1 : ¬ (copies < copies) := lt_irrefl _
    have h2 : (pre.length : ℤ) - 1 + 1 < 5 * copies := by
      rw [hlen]
      have hj4 : (j : ℤ) < 5 := by exact_mod_cast (by omega : j < 5)
      have := mul_lt_mul_of_pos_right hj4 (by omega : (0 : ℤ) < copies)
      omega
    rw [if_neg h1, if_pos h2]
    have hsub : (pre.length : ℤ) - 1 + 1 = (pre.length : ℤ) := by ring
    have h1eq : (1 : ℤ) = copies - ((copies.toNat - 1 : ℕ) : ℤ) := by omega
    rw [hsub, h1eq, padLoop_inner copies (copies.toNat - 1) pre suf x]
    have hrep : (copies.toNat - 1) + 1 = copies.toNat := by omega
    rw [hrep]
    have hlist : pre ++ List.replicate copies.toNat x ++ suf
        = (pre ++ List.replicate copies.toNat x) ++ suf := by
      simp [List.append_assoc]
    have hi2 : (pre.length : ℤ) + ((copies.toNat - 1 : ℕ) : ℤ)
        = (((pre ++ List.replicate copies.toNat x).length : ℕ) : ℤ) - 1 := by
      simp [List.length_append]; omega
    rw [hlist, hi2, ih (j + 1) (pre ++ List.replicate copies.toNat x) suf (by omega)
      (by simp [List.length_append]; ring_nf; omega) (by simpa using hm)]
    simp [List.append_assoc]

/-- Closed form of the padding step (lines 82-93) when it fires: the first five
frames are each expanded to `⌊init_fr / fr⌋` consecutive copies. -/
theorem make_gif_pad_eq {α : Type} [Inhabited α] (init_fr fr : ℚ) (l : List α)
    (h0 : init_fr ≠ 0) (h1 : fr < init_fr) (h5 : 5 < l.length)
    (hc : 1 ≤ ⌊init_fr / fr⌋) :
    make_gif_pad init_fr fr l
      = (l.take 5).flatMap (fun x => List.replicate (⌊init_fr / fr⌋).toNat x) ++ l.drop 5 := by
  rw [make_gif_pad, if_pos ⟨h0, h1, by simpa [start_frames] using h5⟩]
  have h := padLoop_outer ⌊init_fr / fr⌋ hc 5 0 [] l (by norm_num) (by simp) (by omega)
  simpa using h

theorem length_flatMap_replicate {α : Type} (k : ℕ) (l : List α) :
    (l.flatMap fun x => List.replicate k x).length = l.length * k := by
  induction l with
  | nil => simp
  | cons a t ih => simp [ih, Nat.succ_mul]; omega

/-! ### Claims C1, C2, C3 -/

/-- Claim C1, counterexample: for the five-element list `[0,1,2,3,4]` (length `≥ 5`),
intro interval 1000 and base interval 100, the padding step of lines 82-93 leaves the
list unchanged and the multiplier stays 1, because line 84 requires
`len(fits_files) > start_frames`, i.e. strictly more than five frames; the claimed
tenfold expansion of the first five frames does not happen. -/
theorem pad_len_five_unchanged :
    5 ≤ ([0, 1, 2, 3, 4] : List ℕ).length
    ∧ make_gif_pad 1000 100 ([0, 1, 2, 3, 4] : List ℕ) = [0, 1, 2, 3, 4]
    ∧ make_gif_copies 1000 100 ([0, 1, 2, 3, 4] : List ℕ).length = 1
    ∧ make_gif_pad 1000 100 ([0, 1, 2, 3, 4] : List ℕ)
      ≠ (([0, 1, 2, 3, 4] : List ℕ).take 5).flatMap (fun x => List.replicate 10 x)
        ++ ([0, 1, 2, 3, 4] : List ℕ).drop 5 := by
  refine ⟨by decide, by decide, by decide, by decide⟩

/-- Claim C1, amended to lists of length at least 6 (the code pads only when
`len(fits_files) > 5`): with intro interval 1000 and base interval 100 the multiplier
is `1000 // 100 = 10`, and the padded list is exactly the first five frames each
repeated 10 times consecutively followed by the remaining frames once, in order. -/
theorem pad_intro1000_tenfold (l : List ℕ) (h : 6 ≤ l.length) :
    make_gif_copies 1000 100 l.length = 10
    ∧ make_gif_pad 1000 100 l
      = (l.take 5).flatMap (fun x => List.replicate 10 x) ++ l.drop 5 := by
  have hfl : ⌊(1000 : ℚ) / 100⌋ = 10 := by norm_num
  constructor
  · rw [make_gif_copies,
      if_pos ⟨by norm_num, by norm_num, by simp only [start_frames]; omega⟩, hfl]
  · have hpad := make_gif_pad_eq 1000 100 l (by norm_num) (by norm_num) (by omega)
      (by rw [hfl]; norm_num)
    rw [hpad, hfl]
    rfl

theorem pad_intro1000_tenfold_witness :
    make_gif_copies 1000 100 ([0, 1, 2, 3, 4, 5] : List ℕ).length = 10
    ∧ make_gif_pad 1000 100 ([0, 1, 2, 3, 4, 5] : List ℕ)
      = (([0, 1, 2, 3, 4, 5] : List ℕ).take 5).flatMap (fun x => List.replicate 10 x)
        ++ ([0, 1, 2, 3, 4, 5] : List ℕ).drop 5 :=
  pad_intro1000_tenfold [0, 1, 2, 3, 4, 5] (by decide)

/-- Claim C2: whenever the intro interval is unset (falsy, i.e. `0`), or at most the
base interval, or the list has fewer than five frames, the padding step of
lines 82-93 returns the frame list unchanged. -/
theorem pad_noop_conditions {α : Type} [Inhabited α] (init_fr fr : ℚ) (l : List α)
    (h : init_fr = 0 ∨ init_fr ≤ fr ∨ l.length < 5) :
    make_gif_pad init_fr fr l = l := by
  rw [make_gif_pad, if_neg]
  rintro ⟨hne, hlt, hlen⟩
  rcases h with h | h | h
  · exact hne h
  · exact absurd hlt (not_lt.mpr h)
  · simp only [start_frames] at hlen; omega

theorem pad_noop_conditions_witness :
    make_gif_pad 100 100 ([0, 1, 2, 3, 4, 5, 6] : List ℕ) = [0, 1, 2, 3, 4, 5, 6] :=
  pad_noop_conditions 100 100 _ (Or.inr (Or.inl (le_refl 100)))

/-- Claim C3, counterexample: for a frame list containing a duplicated path,
`[0, 0, 1, 2, 3, 4]`, with intro interval 1000 and base interval 100, the displayed
total `int(len(fits_files) - (copies - 1) * start_frames)` of line 192 is 6 (the
original list length), while the number of distinct source frames is 5, so the
displayed total does not equal the number of distinct source frames. -/
theorem title_total_duplicates_cex :
    totalDisplayed (make_gif_pad 1000 100 ([0, 0, 1, 2, 3, 4] : List ℕ)).length
        (make_gif_copies 1000 100 ([0, 0, 1, 2, 3, 4] : List ℕ).length) = 6
    ∧ ([0, 0, 1, 2, 3, 4] : List ℕ).dedup.length = 5
    ∧ (6 : ℤ) ≠ 5 := by
  have hfl : ⌊(1000 : ℚ) / 100⌋ = 10 := by norm_num
  have hpad := make_gif_pad_eq 1000 100 ([0, 0, 1, 2, 3, 4] : List ℕ) (by norm_num)
    (by norm_num) (by decide) (by rw [hfl]; norm_num)
  refine ⟨?_, by decide, by decide⟩
  rw [hpad, hfl, make_gif_copies, if_pos ⟨by norm_num, by norm_num, by decide⟩, hfl]
  decide

/-- Claim C3, amended: for every frame list and every positive base frame interval,
the displayed total of line 192 (computed over the padded list) equals the original
unpadded list length; when the input frames are pairwise distinct this is also the
number of distinct source frames. -/
theorem title_total_eq_original {α : Type} [DecidableEq α] [Inhabited α] (l : List α)
    (init_fr fr : ℚ) (hfr : 0 < fr) :
    totalDisplayed (make_gif_pad init_fr fr l).length
        (make_gif_copies init_fr fr l.length) = l.length
    ∧ (l.Nodup →
      totalDisplayed (make_gif_pad init_fr fr l).length
          (make_gif_copies init_fr fr l.length) = (l.dedup.length : ℤ)) := by
  have main : totalDisplayed (make_gif_pad init_fr fr l).length
      (make_gif_copies init_fr fr l.length) = l.length := by
    by_cases hcond : init_fr ≠ 0 ∧ fr < init_fr ∧ start_frames < l.length
    · obtain ⟨h0, h1, h5⟩ := hcond
      have h5' : 5 < l.length := by simpa [start_frames] using h5
      have hc : 1 ≤ ⌊init_fr / fr⌋ := by
        rw [Int.le_floor]
        push_cast
        rw [le_div_iff₀ hfr]
        linarith
      rw [make_gif_pad_eq init_fr fr l h0 h1 h5' hc, make_gif_copies,
        if_pos ⟨h0, h1, h5⟩, totalDisplayed, List.length_append,
        length_flatMap_replicate]
      have htake : (l.take 5).length = 5 := by rw [List.length_take]; omega
      have hdrop : (l.drop 5).length = l.length - 5 := List.length_drop _ _
      rw [htake, hdrop]
      have htn : ((⌊init_fr / fr⌋.toNat : ℕ) : ℤ) = ⌊init_fr / fr⌋ :=
        Int.toNat_of_nonneg (by omega)
      simp only [start_frames]
      omega
    · rw [make_gif_pad, if_neg hcond, make_gif_copies, if_neg hcond]
      simp [totalDisplayed]
  exact ⟨main, fun hnd => by rw [List.dedup_eq_self.mpr hnd]; exact main⟩

theorem title_total_eq_original_witness :
    totalDisplayed (make_gif_pad 1000 100 ([0, 1, 2, 3, 4, 5] : List ℕ)).length
        (make_gif_copies 1000 100 ([0, 1, 2, 3, 4, 5] : List ℕ).length)
      = ([0, 1, 2, 3, 4, 5] : List ℕ).length
    ∧ totalDisplayed (make_gif_pad 1000 100 ([0, 1, 2, 3, 4, 5] : List ℕ)).length
        (make_gif_copies 1000 100 ([0, 1, 2, 3, 4, 5] : List ℕ).length)
      = (([0, 1, 2, 3, 4, 5] : List ℕ).dedup.length : ℤ) :=
  ⟨(title_total_eq_original [0, 1, 2, 3, 4, 5] 1000 100 (by decide)).1,
   (title_total_eq_original [0, 1, 2, 3, 4, 5] 1000 100 (by decide)).2 (by decide)⟩

/-! ### Claims C4, C5, C8 -/

/-- Symbolic evaluation of the center-crop block (lines 147-153) on a header holding
numeric `CRPIX1`/`CRPIX2`: the data is sliced by `x_frac = int(shape[0]/2.5)` rows and
`y_frac = int(shape[1]/2.5)` columns, `CRPIX1` is decremented by `x_frac` (the row
offset) and `CRPIX2` by `y_frac` (the column offset). -/
theorem centerCropStep_eq (c1 c2 : ℚ) (img : Img) (h : ¬ img = []) :
    centerCropStep [("CRPIX1", HVal.num c1), ("CRPIX2", HVal.num c2)] img
      = .ok ([("CRPIX1", HVal.num (c1 - ((2 * img.length / 5 : ℕ) : ℚ))),
              ("CRPIX2", HVal.num (c2 - ((2 * (img.headD []).length / 5 : ℕ) : ℚ)))],
          (pyCenterSlice (2 * img.length / 5) img).map
            fun row => pyCenterSlice (2 * (img.headD []).length / 5) row) := by
  rw [centerCropStep, if_neg h]
  simp [getNumField, headerLookup, headerSet]

/-- Claim C4 evidence: on a non-square 10-row by 5-column image with
`CRPIX1 = CRPIX2 = 3`, the center-crop block cuts `int(10/2.5) = 4` rows from top and
bottom and `int(5/2.5) = 2` columns from each side, but subtracts the row offset 4
from `CRPIX1` (the axis-1, i.e. column, reference pixel) and the column offset 2 from
`CRPIX2`: the offsets are applied to the wrong axes, so the reference pixel no longer
denotes the position the claim requires (`CRPIX1` should become `3 - 2 = 1`, and
`CRPIX2` should become `3 - 4 = -1`). -/
theorem center_crop_swapped_axes :
    centerCropStep [("CRPIX1", HVal.num 3), ("CRPIX2", HVal.num 3)]
        [[0, 1, 2, 3, 4], [5, 6, 7, 8, 9], [10, 11, 12, 13, 14], [15, 16, 17, 18, 19],
         [20, 21, 22, 23, 24], [25, 26, 27, 28, 29], [30, 31, 32, 33, 34],
         [35, 36, 37, 38, 39], [40, 41, 42, 43, 44], [45, 46, 47, 48, 49]]
      = .ok ([("CRPIX1", HVal.num (-1)), ("CRPIX2", HVal.num 1)], [[22], [27]])
    ∧ ((-1 : ℚ) ≠ 3 - 2 ∧ (1 : ℚ) ≠ 3 - 4) := by
  constructor
  · rw [centerCropStep_eq 3 3 _ (by decide)]
    norm_num [pyCenterSlice]
  · constructor
    · norm_num
    · norm_num

/-- Claim C5: the renderer takes header and data from the first existing source among
the `SCI` extension, the `COMPRESSED_IMAGE` extension and the primary (index 0) HDU,
in that order (lines 136-146); in particular, with neither named extension present
the primary HDU is used. -/
theorem hdu_selection (hdul : FitsFile) (u : Hdu) :
    (hdul.find? (fun v => v.extname = some "SCI") = some u → selectHdu hdul = some u)
    ∧ (hdul.find? (fun v => v.extname = some "SCI") = none →
       hdul.find? (fun v => v.extname = some "COMPRESSED_IMAGE") = some u →
       selectHdu hdul = some u)
    ∧ ((∀ v ∈ hdul, v.extname ≠ some "SCI" ∧ v.extname ≠ some "COMPRESSED_IMAGE") →
       selectHdu hdul = hdul[0]?) := by
  refine ⟨fun h1 => ?_, fun h1 h2 => ?_, fun h3 => ?_⟩
  · rw [selectHdu, h1]
  · rw [selectHdu, h1, h2]
  · have e1 : hdul.find? (fun v => v.extname = some "SCI") = none := by
      rw [List.find?_eq_none]
      intro v hv
      simpa using (h3 v hv).1
    have e2 : hdul.find? (fun v => v.extname = some "COMPRESSED_IMAGE") = none := by
      rw [List.find?_eq_none]
      intro v hv
      simpa using (h3 v hv).2
    rw [selectHdu, e1, e2]

theorem hdu_selection_witness :
    selectHdu [⟨none, [("OBJECT", HVal.str "M42")], [[1]]⟩, ⟨some "OTHER", [], [[2]]⟩]
      = ([⟨none, [("OBJECT", HVal.str "M42")], [[1]]⟩,
          ⟨some "OTHER", [], [[2]]⟩] : FitsFile)[0]? :=
  (hdu_selection _ ⟨none, [], []⟩).2.2 (by decide)

/-- Claim C8: the save file goes into the directory of the first input frame
(line 80) and is named
`<object>_<requestnumber>_guidemovie.gif` with spaces and slashes of the object name
replaced by underscores; the request number is `REQNUM` with leading zeros stripped
(so `'0042'` gives `'42'`), and a missing `REQNUM` gives the literal `'UNKNOWN'`
(lines 105-109 and 216). -/
theorem savefile_naming (f : String) (rest : List String) (header : Header)
    (obj r : String) :
    (headerLookup header "OBJECT" = some (.str obj) →
     headerLookup header "REQNUM" = some (.str r) →
     make_gif_savefile (f :: rest) header
       = .ok (pyJoin (pyLstrip ' ' (pyDirname f))
           (pyReplaceChar '/' '_' (pyReplaceChar ' ' '_' obj) ++ "_" ++ pyLstrip '0' r
             ++ "_guidemovie.gif")))
    ∧ (headerLookup header "OBJECT" = some (.str obj) →
       headerLookup header "REQNUM" = none →
       make_gif_savefile (f :: rest) header
         = .ok (pyJoin (pyLstrip ' ' (pyDirname f))
             (pyReplaceChar '/' '_' (pyReplaceChar ' ' '_' obj) ++ "_" ++ "UNKNOWN"
               ++ "_guidemovie.gif")))
    ∧ pyLstrip '0' "0042" = "42" := by
  refine ⟨fun h1 h2 => ?_, fun h1 h2 => ?_, by decide⟩
  · rw [make_gif_savefile]
    simp [h1, h2]
  · rw [make_gif_savefile]
    simp [h1, h2]

theorem savefile_naming_witness :
    make_gif_savefile ["/data/frames/frame1.fits"]
        [("OBJECT", HVal.str "My Obj/x"), ("REQNUM", HVal.str "0042")]
      = .ok (pyJoin (pyLstrip ' ' (pyDirname "/data/frames/frame1.fits"))
          (pyReplaceChar '/' '_' (pyReplaceChar ' ' '_' "My Obj/x") ++ "_"
            ++ pyLstrip '0' "0042" ++ "_guidemovie.gif")) :=
  (savefile_naming "/data/frames/frame1.fits" []
      [("OBJECT", HVal.str "My Obj/x"), ("REQNUM", HVal.str "0042")] "My Obj/x" "0042").1
    (by decide) (by decide)

/-! ### Claims C6 and C7 -/

theorem runFrames_error_of_mem (strptime : String → String → Option ℕ)
    (wcsValid : Header → Bool) (zs : Img → ℚ × ℚ) (center tr progress : Bool)
    (fr init_fr : ℚ) (copies : ℤ) (elapsed : ℚ) (files : List FitsFile)
    (ns : List ℕ) (n : ℕ) (e : PyError) (hmem : n ∈ ns)
    (herr : update strptime wcsValid zs center tr progress fr init_fr copies elapsed
      files n = .error e) :
    exceptIsOk (runFrames strptime wcsValid zs center tr progress fr init_fr copies
      elapsed files ns) = false := by
  induction ns with
  | nil => simp at hmem
  | cons m ms ih =>
    rw [runFrames]
    cases hm : update strptime wcsValid zs center tr progress fr init_fr copies elapsed
        files m with
    | error e' => rfl
    | ok st =>
      rcases List.mem_cons.mp hmem with rfl | hmem'
      · rw [hm] at herr; exact Except.noConfusion herr
      · have hms := ih hmem'
        cases hr : runFrames strptime wcsValid zs center tr progress fr init_fr copies
            elapsed files ms with
        | error e' => rfl
        | ok sts => rw [hr] at hms; exact absurd hms (by simp [exceptIsOk])

/-- Claim C6: the observation timestamp is read from `DATE-OBS`, falling back to
`DATE_OBS` (lines 158-161); the value is parsed first with the fractional-seconds
format `fmtWithFrac` and then with `fmtNoFrac` (lines 162-165); if both fields are
missing the step raises `KeyError`, if both formats fail it raises `ValueError`, and
either exception being raised in any frame's render makes the whole run abort (no
per-frame skip). -/
theorem date_fallback_and_abort (strptime : String → String → Option ℕ) (h : Header)
    (s : String) (d : ℕ) (wcsValid : Header → Bool) (zs : Img → ℚ × ℚ)
    (center tr progress : Bool) (fr init_fr : ℚ) (copies : ℤ) (elapsed : ℚ)
    (files : List FitsFile) (n : ℕ) (e : PyError) :
    (headerLookup h "DATE-OBS" = none → headerLookup h "DATE_OBS" = none →
      extractDate strptime h = .error .keyError)
    ∧ (headerLookup h "DATE-OBS" = some (.str s) → strptime s fmtWithFrac = some d →
      extractDate strptime h = .ok d)
    ∧ (headerLookup h "DATE-OBS" = some (.str s) → strptime s fmtWithFrac = none →
      strptime s fmtNoFrac = some d → extractDate strptime h = .ok d)
    ∧ (headerLookup h "DATE-OBS" = none → headerLookup h "DATE_OBS" = some (.str s) →
      strptime s fmtWithFrac = none → strptime s fmtNoFrac = none →
      extractDate strptime h = .error .valueError)
    ∧ (n < files.length →
      update strptime wcsValid zs center tr progress fr init_fr copies elapsed files n
        = .error e →
      exceptIsOk (runAll strptime wcsValid zs center tr progress fr init_fr copies
        elapsed files) = false) := by
  refine ⟨fun h1 h2 => ?_, fun h1 h2 => ?_, fun h1 h2 h3 => ?_, fun h1 h2 h3 h4 => ?_,
    fun hn herr => ?_⟩
  · simp only [extractDate, getDateObs, h1, h2]
  · simp only [extractDate, getDateObs, parseDateObs, h1, h2]
  · simp only [extractDate, getDateObs, parseDateObs, h1, h2, h3]
  · simp only [extractDate, getDateObs, parseDateObs, h1, h2, h3, h4]
  · exact runFrames_error_of_mem strptime wcsValid zs center tr progress fr init_fr
      copies elapsed files (List.range files.length) n e (List.mem_range.mpr hn) herr

theorem date_fallback_and_abort_witness :
    extractDate (fun s f => if s = "2018-01-01T00:00:00.5" ∧ f = fmtWithFrac then some 9
        else if s = "2018-01-01T00:00:00" ∧ f = fmtNoFrac then some 8 else none)
      [("OTHER", HVal.str "x")] = .error .keyError
    ∧ extractDate (fun s f => if s = "2018-01-01T00:00:00.5" ∧ f = fmtWithFrac then some 9
        else if s = "2018-01-01T00:00:00" ∧ f = fmtNoFrac then some 8 else none)
      [("DATE-OBS", HVal.str "2018-01-01T00:00:00.5")] = .ok 9
    ∧ extractDate (fun s f => if s = "2018-01-01T00:00:00.5" ∧ f = fmtWithFrac then some 9
        else if s = "2018-01-01T00:00:00" ∧ f = fmtNoFrac then some 8 else none)
      [("DATE-OBS", HVal.str "2018-01-01T00:00:00")] = .ok 8
    ∧ extractDate (fun s f => if s = "2018-01-01T00:00:00.5" ∧ f = fmtWithFrac then some 9
        else if s = "2018-01-01T00:00:00" ∧ f = fmtNoFrac then some 8 else none)
      [("DATE_OBS", HVal.str "garbage")] = .error .valueError
    ∧ exceptIsOk (runAll (fun s f => if s = "2018-01-01T00:00:00.5" ∧ f = fmtWithFrac
          then some 9 else if s = "2018-01-01T00:00:00" ∧ f = fmtNoFrac then some 8
          else none)
        (fun _ => true) (fun _ => (0, 1)) false false false 100 1000 1 0
        [[⟨none, [("OTHER", HVal.str "x")], [[1]]⟩]]) = false :=
  ⟨(date_fallback_and_abort _ [("OTHER", HVal.str "x")] "" 0 (fun _ => true)
      (fun _ => (0, 1)) false false false 100 1000 1 0 [] 0 .keyError).1 (by decide)
     (by decide),
   (date_fallback_and_abort _ [("DATE-OBS", HVal.str "2018-01-01T00:00:00.5")]
      "2018-01-01T00:00:00.5" 9 (fun _ => true)
      (fun _ => (0, 1)) false false false 100 1000 1 0 [] 0 .keyError).2.1 (by decide)
     (by decide),
   (date_fallback_and_abort _ [("DATE-OBS", HVal.str "2018-01-01T00:00:00")]
      "2018-01-01T00:00:00" 8 (fun _ => true)
      (fun _ => (0, 1)) false false false 100 1000 1 0 [] 0 .keyError).2.2.1 (by decide)
     (by decide) (by decide),
   (date_fallback_and_abort _ [("DATE_OBS", HVal.str "garbage")] "garbage" 0
      (fun _ => true) (fun _ => (0, 1)) false
      false false 100 1000 1 0 [] 0 .keyError).2.2.2.1 (by decide) (by decide)
     (by decide) (by decide),
   (date_fallback_and_abort _ [("OTHER", HVal.str "x")] "" 0 (fun _ => true)
      (fun _ => (0, 1)) false false false
      100 1000 1 0 [[⟨none, [("OTHER", HVal.str "x")], [[1]]⟩]] 0
      .keyError).2.2.2.2 (by decide) (by decide)⟩

/-- Claim C7: a header without a valid astrometric transform is never fatal.  If the
render of frame `n` succeeds when the transform is treated as valid, then with the
transform invalid (the situation where lines 171-189 catch
`InvalidTransformError`/`AttributeError` and `pass`) the same render still succeeds,
and the only difference is that no coordinate grid is attached. -/
theorem invalid_wcs_nonfatal (strptime : String → String → Option ℕ)
    (zs : Img → ℚ × ℚ) (center tr progress : Bool) (fr init_fr : ℚ) (copies : ℤ)
    (elapsed : ℚ) (files : List FitsFile) (n : ℕ) (st : RenderState)
    (h : update strptime (fun _ => true) zs center tr progress fr init_fr copies elapsed
      files n = .ok st) :
    update strptime (fun _ => false) zs center tr progress fr init_fr copies elapsed
      files n = .ok { st with grid := false } := by
  unfold update at h ⊢
  cases h1 : openFrame files n with
  | error e => simp only [h1] at h; exact Except.noConfusion h
  | ok u =>
    simp only [h1] at h ⊢
    cases h2 : cropStage center u.header u.data with
    | error e => simp only [h2] at h; exact Except.noConfusion h
    | ok pr =>
      obtain ⟨hd, dat⟩ := pr
      simp only [h2] at h ⊢
      cases h3 : extractDate strptime hd with
      | error e => simp only [h3] at h; exact Except.noConfusion h
      | ok date =>
        simp only [h3] at h ⊢
        cases h4 : reticleStage tr fr init_fr ((files.take (n + 1)).dedup.length) hd with
        | error e => simp only [h4] at h; exact Except.noConfusion h
        | ok ret =>
          simp only [h4] at h ⊢
          cases h5 : progressStage progress n files.length
              ((files.take (n + 1)).dedup.length) elapsed with
          | error e => simp only [h5] at h; exact Except.noConfusion h
          | ok prog =>
            simp only [h5] at h ⊢
            injection h with h'
            subst h'
            rfl

theorem invalid_wcs_nonfatal_witness :
    update (fun s f => if s = "2018-09-04T03:04:05.5" ∧ f = fmtWithFrac then some 77
        else none)
      (fun _ => false) (fun _ => (0, 1)) false false false 100 1000 1 0
      [[⟨none, [("DATE-OBS", HVal.str "2018-09-04T03:04:05.5")], [[5]]⟩]] 0
      = .ok ⟨[[5]], 77, 0, 1, false, 1, 1, none, none⟩ :=
  invalid_wcs_nonfatal _ _ false false false 100 1000 1 0
    [[⟨none, [("DATE-OBS", HVal.str "2018-09-04T03:04:05.5")], [[5]]⟩]] 0
    ⟨[[5]], 77, 0, 1, true, 1, 1, none, none⟩ (by decide)

/-! ### Claims C9 and C10 -/

theorem crlf_line_ne_newline (s : String) (h : s.data.head? = some '\r') : s ≠ "\n" := by
  intro hs
  rw [hs] at h
  exact absurd h (by decide)

theorem newline_mem_progress_line (pre bar percent tl suf : String)
    (iteration total : ℕ) :
    ("\n" ∈ (if iteration = total
        then ["\r" ++ pre ++ " |" ++ bar ++ "| " ++ percent ++ "%" ++ tl ++ suf ++ "\r",
          "\n"]
        else ["\r" ++ pre ++ " |" ++ bar ++ "| " ++ percent ++ "%" ++ tl ++ suf ++ "\r"]))
      ↔ iteration = total := by
  have hline : ("\r" ++ pre ++ " |" ++ bar ++ "| " ++ percent ++ "%" ++ tl ++ suf ++ "\r")
      ≠ "\n" := by
    apply crlf_line_ne_newline
    simp [String.data_append]
  by_cases hit : iteration = total
  · simp [hit]
  · simp [hit, hline.symm]

theorem pyFormatFixed_fifty : pyFormatFixed 50 1 = "50.0" := by
  simp only [pyFormatFixed]
  have h500 : (50 : ℚ) * 10 ^ 1 = 500 := by norm_num
  rw [h500]
  have hround : halfEvenRound 500 = 500 := by
    simp only [halfEvenRound]
    norm_num
  rw [hround]
  decide

/-- Claim C9, counterexample: the call `print_progress_bar(0, 0)` has
`iteration == total`, yet no trailing newline (and no line at all) is printed: the
percentage computation of line 43 raises `ZeroDivisionError` first.  So "a trailing
newline is printed exactly when iteration equals total" fails for this call. -/
theorem progress_newline_zero_total_cex :
    ¬ (("\n" ∈ printedLines (print_progress_bar 0 0 "" "" 1 100 '█' none)) ↔ 0 = 0) := by
  decide

/-- Claim C9, amended to calls that complete (nonzero `total`, and nonzero
`iteration` when a start time is given): with `iteration = 50`, `total = 100` and no
start time the printed line reads `50.0%` with a single space in place of the
time-remaining text; and a trailing newline is printed exactly when
`iteration == total`. -/
theorem progress_fifty_and_newline :
    print_progress_bar 50 100 "" "" 1 100 '█' none
      = .ok ["\r" ++ "" ++ " |"
          ++ String.mk (List.replicate 50 '█' ++ List.replicate 50 '-')
          ++ "| " ++ "50.0" ++ "%" ++ " " ++ "" ++ "\r"]
    ∧ ∀ (iteration total decimals length : ℕ) (pre suf : String) (fill : Char)
        (elapsed : Option ℚ), total ≠ 0 → (elapsed = none ∨ iteration ≠ 0) →
      (("\n" ∈ printedLines (print_progress_bar iteration total pre suf decimals length
          fill elapsed)) ↔ iteration = total) := by
  constructor
  · unfold print_progress_bar
    norm_num
    rw [pyFormatFixed_fifty]
  · intro iteration total decimals length pre suf fill elapsed htot helap
    rcases elapsed with _ | e
    · simp only [print_progress_bar, if_neg htot, printedLines]
      exact newline_mem_progress_line _ _ _ _ _ _ _
    · rcases helap with hcontra | hzero
      · exact absurd hcontra (by simp)
      · simp only [print_progress_bar, if_neg htot, if_neg hzero, printedLines]
        exact newline_mem_progress_line _ _ _ _ _ _ _

theorem progress_fifty_and_newline_witness :
    ("\n" ∈ printedLines (print_progress_bar 100 100 "" "" 1 100 '█' none)) ↔ 100 = 100 :=
  progress_fifty_and_newline.2 100 100 1 100 "" "" '█' none (by decide) (Or.inl rfl)

/-- Claim C10: `print_progress_bar` is not total on its public interface: every call
with `total = 0` divides by zero in the percentage computation (line 43), and every
call with a start time and `iteration = 0` divides by zero in the remaining-time
extrapolation (line 50); both raise `ZeroDivisionError`. -/
theorem progress_bar_divzero (iteration total decimals length : ℕ) (pre suf : String)
    (fill : Char) (elapsed : Option ℚ) (e : ℚ) :
    print_progress_bar iteration 0 pre suf decimals length fill elapsed
      = .error .zeroDivisionError
    ∧ print_progress_bar 0 total pre suf decimals length fill (some e)
      = .error .zeroDivisionError := by
  constructor
  · unfold print_progress_bar
    rw [if_pos rfl]
  · unfold print_progress_bar
    by_cases h : total = 0
    · rw [if_pos h]
    · rw [if_neg h]
      simp
